import Mathlib

/-!
Verification of the master-bootstrap fragment of seaweedfs
(`weed/command/master.go`): peer-quorum resolution (`checkPeers`),
option plumbing (`toMasterOption`), and the ordered bootstrap sequence
(`runMaster` / `startMaster`), embedded shallowly.  Pure string/list
computations are translated directly; the effectful bootstrap is embedded
as an event-trace generator parametrised by the success/failure of each
fallible external call, with `glog.Fatalf` modelled as a terminal
`fatal` event.
-/

namespace SeaweedMaster

/-- Go `strconv.Itoa` applied to an `int`, i.e. decimal rendering. -/
def itoa (n : Int) : String := toString n

/-- `masterAddress = masterIp + ":" + strconv.Itoa(masterPort)` in `checkPeers`. -/
def selfAddress (ip : String) (port : Int) : String := ip ++ ":" ++ itoa port

/-- Go `strings.Split(s, ",")`: cut `s` at every comma; the empty string
yields `[""]`.  Implemented character by character so that it evaluates
inside the kernel. -/
def splitComma (s : String) : List String :=
  (s.toList.foldr
    (fun c acc =>
      if c = ',' then [] :: acc
      else match acc with
        | [] => [[c]]
        | g :: gs => (c :: g) :: gs) [[]]).map String.mk

/-- The comma-split the code performs: `if peers != "" { cleanedPeers =
strings.Split(peers, ",") }`, so the empty string yields the empty list,
not a single empty-string entry. -/
def splitPeers (peers : String) : List String :=
  if peers = "" then [] else splitComma peers

/-- The `cleanedPeers` list `checkPeers` has computed right before the
odd-parity check: the comma-split candidates, with the self address appended
iff no candidate is an exact string match for it. -/
def resolvedPeers (ip : String) (port : Int) (peers : String) : List String :=
  let masterAddress := selfAddress ip port
  let cleanedPeers := splitPeers peers
  if cleanedPeers.contains masterAddress then cleanedPeers
  else cleanedPeers ++ [masterAddress]

/-- `checkPeers(masterIp, masterPort, peers)`.  `none` models the
`glog.Fatalf("Only odd number of masters are supported!")` exit taken when
the resolved list has even length; otherwise the function returns the self
address and the resolved list. -/
def checkPeers (ip : String) (port : Int) (peers : String) :
    Option (String × List String) :=
  let cleanedPeers := resolvedPeers ip port peers
  if cleanedPeers.length % 2 == 0 then none
  else some (selfAddress ip port, cleanedPeers)

theorem resolvedPeers_of_not_mem {ip : String} {port : Int} {peers : String}
    (h : selfAddress ip port ∉ splitPeers peers) :
    resolvedPeers ip port peers = splitPeers peers ++ [selfAddress ip port] := by
  unfold resolvedPeers
  simp [h]

theorem resolvedPeers_of_mem {ip : String} {port : Int} {peers : String}
    (h : selfAddress ip port ∈ splitPeers peers) :
    resolvedPeers ip port peers = splitPeers peers := by
  unfold resolvedPeers
  simp [h]

/-- **C1.** If the self address `S` is not among the comma-split entries of
the raw list, the resolved peer list has exactly `|split(L)| + 1` entries and
contains `S` exactly once; if `S` is among them the resolved list is exactly
the split list (same length, duplicates of other peers kept).  Whenever
`checkPeers` returns (does not hit the fatal parity exit), the list it
returns is this resolved list and the address is `S`. -/
theorem checkPeers_resolution (ip : String) (port : Int) (peers : String) :
    (selfAddress ip port ∉ splitPeers peers →
      (resolvedPeers ip port peers).length = (splitPeers peers).length + 1 ∧
      (resolvedPeers ip port peers).count (selfAddress ip port) = 1) ∧
    (selfAddress ip port ∈ splitPeers peers →
      resolvedPeers ip port peers = splitPeers peers) ∧
    (∀ r, checkPeers ip port peers = some r →
      r = (selfAddress ip port, resolvedPeers ip port peers)) := by
  refine ⟨fun h => ?_, fun h => resolvedPeers_of_mem h, fun r hr => ?_⟩
  · rw [resolvedPeers_of_not_mem h]
    constructor
    · simp
    · rw [List.count_append, List.count_eq_zero_of_not_mem h]
      simp
  · unfold checkPeers at hr
    by_cases hpar : (resolvedPeers ip port peers).length % 2 == 0
    · simp [hpar] at hr
    · simp only [hpar, if_false] at hr
      exact (Option.some.injEq _ _).mp hr |>.symm

/-- Witness for C1 at `ip = "b"`, `port = 2`, raw list `"a:1"`:
`"b:2" ∉ ["a:1"]`, so the resolved list is `["a:1", "b:2"]` of length 2
containing `"b:2"` once. -/
theorem checkPeers_resolution_witness :
    (resolvedPeers "b" 2 "a:1").length = (splitPeers "a:1").length + 1 ∧
    (resolvedPeers "b" 2 "a:1").count (selfAddress "b" 2) = 1 :=
  (checkPeers_resolution "b" 2 "a:1").1 (by decide)

/-- **C2.** `checkPeers` hits the fatal exit (returns nothing) exactly when
the resolved peer list has even length, and returns normally when it is odd.
In particular raw list `"a:1"` with self `"b:2"` is rejected (size 2) and raw
list `""` with self `"b:2"` is accepted (size 1). -/
theorem checkPeers_parity (ip : String) (port : Int) (peers : String) :
    (checkPeers ip port peers = none ↔
      (resolvedPeers ip port peers).length % 2 = 0) ∧
    checkPeers "b" 2 "a:1" = none ∧
    checkPeers "b" 2 "" = some ("b:2", ["b:2"]) := by
  refine ⟨?_, by decide, by decide⟩
  unfold checkPeers
  by_cases h : (resolvedPeers ip port peers).length % 2 = 0
  · simp [h]
  · simp [h]

/-- **C3.** With an empty raw peer list, `checkPeers` succeeds and returns
exactly the one-element list containing the self address: the empty string is
treated as an empty candidate list, not as a single empty-string entry. -/
theorem checkPeers_empty (ip : String) (port : Int) :
    checkPeers ip port "" = some (selfAddress ip port, [selfAddress ip port]) := by
  unfold checkPeers resolvedPeers splitPeers
  simp

/-! ## Bootstrap embedding

`runMaster` / `startMaster` are effectful: they check the meta folder,
bind listeners, construct the master server and the raft server, register
the gRPC services and start serving.  We embed them as a generator of the
sequence of externally visible steps (an event trace), parametrised by an
environment recording whether each fallible external call succeeds.
`glog.Fatalf` (which terminates the process) is a terminal `fatal` event:
nothing in the trace follows it. -/

/-- The flag set of `MasterOptions` used by the bootstrap path.
`garbageThreshold` (a `float64` only stored into the option struct) is not
carried: no claim concerns it and floats are outside the embedding. -/
structure MasterConfig where
  port : Int
  ip : String
  ipBind : String
  metaFolder : String
  peers : String
  volumeSizeLimitMB : Nat
  volumePreallocate : Bool
  pulseSeconds : Int
  defaultReplication : String
  whiteList : String
  disableHttp : Bool
  metricsAddress : String
  metricsIntervalSec : Int
  deriving DecidableEq, Repr

/-- `weed_server.MasterOption` as filled in by `toMasterOption`
(`GarbageThreshold` omitted, see `MasterConfig`). -/
structure MasterOption where
  Port : Int
  MetaFolder : String
  VolumeSizeLimitMB : Nat
  VolumePreallocate : Bool
  PulseSeconds : Int
  DefaultReplicaPlacement : String
  WhiteList : List String
  DisableHttp : Bool
  MetricsAddress : String
  MetricsIntervalSec : Int
  deriving DecidableEq, Repr

/-- `(m *MasterOptions) toMasterOption(whiteList)`: copy the flag values into
the option struct, storing the given white list. -/
def toMasterOption (c : MasterConfig) (whiteList : List String) : MasterOption :=
  { Port := c.port
    MetaFolder := c.metaFolder
    VolumeSizeLimitMB := c.volumeSizeLimitMB
    VolumePreallocate := c.volumePreallocate
    PulseSeconds := c.pulseSeconds
    DefaultReplicaPlacement := c.defaultReplication
    WhiteList := whiteList
    DisableHttp := c.disableHttp
    MetricsAddress := c.metricsAddress
    MetricsIntervalSec := c.metricsIntervalSec }

/-- `runMaster`'s white-list computation: `var masterWhiteList []string;
if *m.whiteList != "" { masterWhiteList = strings.Split(*m.whiteList, ",") }`. -/
def masterWhiteList (whiteList : String) : List String :=
  if whiteList = "" then [] else splitComma whiteList

/-- Whether each fallible external call made during bootstrap succeeds:
`util.TestFolderWritable`, the two `util.NewListener` binds, and
`weed_server.NewRaftServer` (which returns nil on failure). -/
structure Env where
  folderWritable : Bool
  masterBindOk : Bool
  grpcBindOk : Bool
  raftOk : Bool
  deriving DecidableEq, Repr

/-- The externally visible steps of `runMaster`/`startMaster`, in program
order.  `fatal` models `glog.Fatalf` and is always the last event of a
trace. -/
inductive Event where
  | testFolderWritable (dir : String)
  | fatal (msg : String)
  | checkPeersDone (self : String) (peers : List String)
  | newMasterServer (opt : MasterOption) (peers : List String)
  | bindMaster (addr : String)
  | newRaftServer (peers : List String) (self : String) (dir : String)
  | setRaftServer
  | handleClusterStatus
  | bindGrpc (addr : String)
  | newGrpcServer
  | registerSeaweedServer
  | registerRaftServer
  | reflectionRegister
  | serveGrpc
  | keepConnected
  | serveHttp
  | blockForever
  deriving DecidableEq, Repr

/-- `listeningAddress := *masterOption.ipBind + ":" + strconv.Itoa(*masterOption.port)`. -/
def listeningAddress (c : MasterConfig) : String := c.ipBind ++ ":" ++ itoa c.port

/-- `grpcPort := *masterOption.port + 10000`, then
`*masterOption.ipBind + ":" + strconv.Itoa(grpcPort)`. -/
def grpcAddress (c : MasterConfig) : String := c.ipBind ++ ":" ++ itoa (c.port + 10000)

def oddMastersMsg : String := "Only odd number of masters are supported!"
def mdirMsg : String := "Check Meta Folder (-mdir) Writable"
def volumeMsg : String := "volumeSizeLimitMB should be smaller than 30000"
def masterBindMsg : String := "Master startup error"
def raftNilMsg : String := "please verify the meta folder is writable"
def grpcBindMsg : String := "master failed to listen on grpc port"

/-- The event trace of `startMaster(masterOption, masterWhiteList)`:
resolve peers (fatal on even count), construct the master server, bind the
master listener, construct the raft server, wire it into the master server,
mount `/cluster/status`, bind the gRPC listener, build the gRPC server,
register both services and reflection, start the three background tasks,
then block on `select {}` (the terminal `blockForever` event). -/
def startMasterTrace (env : Env) (c : MasterConfig) (wl : List String) : List Event :=
  match checkPeers c.ip c.port c.peers with
  | none => [.fatal oddMastersMsg]
  | some (self, peers) =>
    .checkPeersDone self peers ::
    .newMasterServer (toMasterOption c wl) peers ::
    if env.masterBindOk then
      .bindMaster (listeningAddress c) ::
      if env.raftOk then
        .newRaftServer peers self c.metaFolder ::
        .setRaftServer ::
        .handleClusterStatus ::
        if env.grpcBindOk then
          [.bindGrpc (grpcAddress c), .newGrpcServer, .registerSeaweedServer,
           .registerRaftServer, .reflectionRegister, .serveGrpc, .keepConnected,
           .serveHttp, .blockForever]
        else [.fatal grpcBindMsg]
      else [.fatal raftNilMsg]
    else [.fatal masterBindMsg]

/-- Modelled from the spec: `util.VolumeSizeLimitGB` lives in the `util`
package, outside this fragment; the spec fixes the ceiling at 30,000 MB
(`VolumeSizeLimitGB * 1000` with the constant equal to 30, matching the
flag default `30*1000` and the fatal message). -/
def VolumeSizeLimitGB : Nat := 30

/-- The event trace of `runMaster`: check the meta folder is writable
(fatal on failure), split the white list, reject an oversized
`volumeSizeLimitMB` (fatal), then run `startMaster`. -/
def runMasterTrace (env : Env) (c : MasterConfig) : List Event :=
  .testFolderWritable c.metaFolder ::
  if env.folderWritable then
    if VolumeSizeLimitGB * 1000 < c.volumeSizeLimitMB then
      [.fatal volumeMsg]
    else startMasterTrace env c (masterWhiteList c.whiteList)
  else [.fatal mdirMsg]

/-! ## Event-kind predicates and trace ordering -/

/-- A listener bind (`util.NewListener`), for either surface. -/
def Event.isBind : Event → Bool
  | .bindMaster _ => true
  | .bindGrpc _ => true
  | _ => false

/-- The management (HTTP) listener bind. -/
def Event.isBindMaster : Event → Bool
  | .bindMaster _ => true
  | _ => false

/-- Construction of the management service (`NewMasterServer`). -/
def Event.isNewMaster : Event → Bool
  | .newMasterServer _ _ => true
  | _ => false

/-- Construction of the consensus service (`NewRaftServer`). -/
def Event.isNewRaft : Event → Bool
  | .newRaftServer _ _ _ => true
  | _ => false

/-- Construction or attachment of the consensus service
(`NewRaftServer` / `SetRaftServer`). -/
def Event.isRaftCtor : Event → Bool
  | .newRaftServer _ _ _ => true
  | .setRaftServer => true
  | _ => false

/-- Construction or attachment of any service object. -/
def Event.isServiceCtor : Event → Bool
  | .newMasterServer _ _ => true
  | .newRaftServer _ _ _ => true
  | .setRaftServer => true
  | _ => false

/-- The wiring of the consensus reference (`ms.SetRaftServer(raftServer)`). -/
def Event.isSetRaft : Event → Bool
  | .setRaftServer => true
  | _ => false

/-- An RPC service registration (`RegisterSeaweedServer` / `RegisterRaftServer`). -/
def Event.isRegisterRPC : Event → Bool
  | .registerSeaweedServer => true
  | .registerRaftServer => true
  | _ => false

/-- A serve call on a listener (`grpcS.Serve` / `httpS.Serve`). -/
def Event.isServe : Event → Bool
  | .serveGrpc => true
  | .serveHttp => true
  | _ => false

/-- The meta-folder writability check (`util.TestFolderWritable`). -/
def Event.isTestFolder : Event → Bool
  | .testFolderWritable _ => true
  | _ => false

/-- Every event satisfying `p` occurs strictly before every event
satisfying `q` in the trace `t`. -/
def strictlyBefore (t : List Event) (p q : Event → Bool) : Prop :=
  ∀ i j, (∃ ei, t.get? i = some ei ∧ p ei = true) →
    (∃ ej, t.get? j = some ej ∧ q ej = true) → i < j

/-- Executable check for `strictlyBefore`: once a `q`-event is reached, that
event and everything after it must be `p`-free. -/
def allBeforeB (t : List Event) (p q : Event → Bool) : Bool :=
  match t with
  | [] => true
  | e :: rest =>
    (if q e then !p e && rest.all (fun x => !p x) else true) && allBeforeB rest p q

theorem strictlyBefore_of_allBeforeB {t : List Event} {p q : Event → Bool}
    (h : allBeforeB t p q = true) : strictlyBefore t p q := by
  induction t with
  | nil =>
    rintro i j ⟨ei, hei, -⟩ -
    simp at hei
  | cons e rest ih =>
    rw [allBeforeB, Bool.and_eq_true] at h
    obtain ⟨h1, h2⟩ := h
    rintro i j ⟨ei, hei, hpi⟩ ⟨ej, hej, hqj⟩
    match i, j with
    | 0, 0 =>
      rw [List.get?_cons_zero, Option.some.injEq] at hei hej
      subst hei; subst hej
      rw [if_pos hqj, Bool.and_eq_true, Bool.not_eq_true'] at h1
      rw [h1.1] at hpi
      exact absurd hpi (by simp)
    | 0, j + 1 => exact Nat.succ_pos j
    | i + 1, 0 =>
      rw [List.get?_cons_zero, Option.some.injEq] at hej
      subst hej
      rw [if_pos hqj, Bool.and_eq_true, List.all_eq_true] at h1
      rw [List.get?_cons_succ] at hei
      have hmem : ei ∈ rest := List.get?_mem hei
      have := h1.2 ei hmem
      rw [hpi] at this
      exact absurd this (by simp)
    | i + 1, j + 1 =>
      rw [List.get?_cons_succ] at hei hej
      exact Nat.succ_lt_succ (ih h2 i j ⟨ei, hei, hpi⟩ ⟨ej, hej, hqj⟩)

/-! ## Concrete instances used by witnesses and counterexamples -/

/-- Environment in which every fallible external call succeeds. -/
def envAll : Env := ⟨true, true, true, true⟩

/-- Environment in which the meta folder is not writable. -/
def envNoFolder : Env := ⟨false, true, true, true⟩

/-- The flag defaults: port 9333, ip `localhost`, bind `0.0.0.0`, empty peer
list, `volumeSizeLimitMB = 30000`, pulse 5s, replication `000`. -/
def cDemo : MasterConfig :=
  ⟨9333, "localhost", "0.0.0.0", "/tmp", "", 30000, false, 5, "000", "", false, "", 15⟩

/-- **C8.** In every bootstrap execution the management service is
constructed before the consensus (raft) service is constructed; the wiring
of the consensus reference into the management service (`SetRaftServer`)
happens before the RPC service registrations; and the registrations happen
before any serve call on either listener. -/
theorem bootstrap_total_order (env : Env) (c : MasterConfig) :
    strictlyBefore (runMasterTrace env c) Event.isNewMaster Event.isNewRaft ∧
    strictlyBefore (runMasterTrace env c) Event.isSetRaft Event.isRegisterRPC ∧
    strictlyBefore (runMasterTrace env c) Event.isRegisterRPC Event.isServe := by
  refine ⟨strictlyBefore_of_allBeforeB ?_, strictlyBefore_of_allBeforeB ?_,
    strictlyBefore_of_allBeforeB ?_⟩ <;>
  · unfold runMasterTrace startMasterTrace
    repeat' split
    all_goals rfl

/-- **C7, counterexample.** The claim "both listeners are bound before any
service object is constructed or attached" is false: in the all-successful
run with default flags, the management service is constructed
(`NewMasterServer`, index 2) before the management listener is bound
(index 3). -/
theorem listener_before_service_cex :
    ¬ strictlyBefore (runMasterTrace envAll cDemo) Event.isBind Event.isServiceCtor := by
  intro h
  have h32 := h 3 2
    ⟨Event.bindMaster "0.0.0.0:9333", by decide, by decide⟩
    ⟨Event.newMasterServer (toMasterOption cDemo []) ["localhost:9333"], by decide, by decide⟩
  omega

/-- **C7, amended.** The management service is constructed before either
listener is bound; the management listener is bound before the consensus
(raft) service is constructed or attached; and both listeners are bound
before any serve call begins. -/
theorem listener_service_order (env : Env) (c : MasterConfig) :
    strictlyBefore (runMasterTrace env c) Event.isNewMaster Event.isBind ∧
    strictlyBefore (runMasterTrace env c) Event.isBindMaster Event.isRaftCtor ∧
    strictlyBefore (runMasterTrace env c) Event.isBind Event.isServe := by
  refine ⟨strictlyBefore_of_allBeforeB ?_, strictlyBefore_of_allBeforeB ?_,
    strictlyBefore_of_allBeforeB ?_⟩ <;>
  · unfold runMasterTrace startMasterTrace
    repeat' split
    all_goals rfl

/-- **C4.** Every gRPC listener bind performed during bootstrap is on the
address `ipBind ++ ":" ++ itoa (port + 10000)`: the RPC listen port is
exactly the configured management (HTTP) port plus 10000. -/
theorem grpc_bind_port (env : Env) (c : MasterConfig) (a : String)
    (h : Event.bindGrpc a ∈ runMasterTrace env c) :
    a = c.ipBind ++ ":" ++ itoa (c.port + 10000) := by
  unfold runMasterTrace startMasterTrace at h
  repeat' split at h
  all_goals simp_all [grpcAddress]

/-- Witness for C4: with the default flags (port 9333) and every external
call succeeding, the gRPC bind is on `0.0.0.0:19333 = 0.0.0.0:(9333+10000)`. -/
theorem grpc_bind_port_witness :
    ("0.0.0.0:19333" : String) = cDemo.ipBind ++ ":" ++ itoa (cDemo.port + 10000) :=
  grpc_bind_port envAll cDemo "0.0.0.0:19333" (by decide)

/-- **C5.** A `volumeSizeLimitMB` strictly above `VolumeSizeLimitGB * 1000 =
30000` makes bootstrap terminate fatally with no listener bind attempted; a
value at or below 30000 passes the check (given the writable check also
passed, execution proceeds into `startMaster`). -/
theorem volume_limit_check (env : Env) (c : MasterConfig) :
    (VolumeSizeLimitGB * 1000 < c.volumeSizeLimitMB →
      (∀ e, e ∈ runMasterTrace env c → Event.isBind e = false) ∧
      (∃ msg, Event.fatal msg ∈ runMasterTrace env c)) ∧
    (c.volumeSizeLimitMB ≤ VolumeSizeLimitGB * 1000 → env.folderWritable = true →
      runMasterTrace env c =
        Event.testFolderWritable c.metaFolder ::
          startMasterTrace env c (masterWhiteList c.whiteList)) := by
  constructor
  · intro hv
    cases hfw : env.folderWritable
    · refine ⟨fun e he => ?_, ⟨mdirMsg, by simp [runMasterTrace, hfw]⟩⟩
      simp [runMasterTrace, hfw] at he
      rcases he with he | he <;> subst he <;> rfl
    · refine ⟨fun e he => ?_, ⟨volumeMsg, by simp [runMasterTrace, hfw, hv]⟩⟩
      simp [runMasterTrace, hfw, hv] at he
      rcases he with he | he <;> subst he <;> rfl
  · intro hv hfw
    simp [runMasterTrace, hfw, Nat.not_lt.mpr hv]

/-- The default flags with `volumeSizeLimitMB` raised to 30001. -/
def cBig : MasterConfig := { cDemo with volumeSizeLimitMB := 30001 }

/-- Witness for C5 at `volumeSizeLimitMB = 30001`: no bind event occurs and
a fatal event does. -/
theorem volume_limit_check_witness :
    (∀ e, e ∈ runMasterTrace envAll cBig → Event.isBind e = false) ∧
    (∃ msg, Event.fatal msg ∈ runMasterTrace envAll cBig) :=
  (volume_limit_check envAll cBig).1 (by decide)

/-- **C6.** If the meta-folder writable check fails, the run is exactly the
check followed by the fatal exit (so no listener is bound); any bind event
implies the check succeeded; and the check precedes every bind event in
every run. -/
theorem writable_before_bind (env : Env) (c : MasterConfig) :
    (env.folderWritable = false →
      runMasterTrace env c =
        [Event.testFolderWritable c.metaFolder, Event.fatal mdirMsg]) ∧
    (∀ e, e ∈ runMasterTrace env c → Event.isBind e = true →
      env.folderWritable = true) ∧
    strictlyBefore (runMasterTrace env c) Event.isTestFolder Event.isBind := by
  refine ⟨fun h => by simp [runMasterTrace, h], fun e he hb => ?_,
    strictlyBefore_of_allBeforeB ?_⟩
  · by_contra hfw
    rw [Bool.not_eq_true] at hfw
    simp [runMasterTrace, hfw] at he
    rcases he with he | he <;> subst he <;> simp [Event.isBind] at hb
  · unfold runMasterTrace startMasterTrace
    repeat' split
    all_goals rfl

/-- Witness for C6: with an unwritable meta folder the trace is the check
followed by the fatal exit. -/
theorem writable_before_bind_witness :
    runMasterTrace envNoFolder cDemo =
      [Event.testFolderWritable cDemo.metaFolder, Event.fatal mdirMsg] :=
  (writable_before_bind envNoFolder cDemo).1 rfl

/-- **C9.** Whenever bootstrap reaches the point of serving the management
HTTP listener, the trace ends with `blockForever` (the `select {}` that
never returns); and every run ends either blocked forever or at a fatal
exit — there is no normal return from `startMaster`. -/
theorem block_forever (env : Env) (c : MasterConfig) :
    (Event.serveHttp ∈ runMasterTrace env c →
      (runMasterTrace env c).getLast? = some Event.blockForever) ∧
    ((runMasterTrace env c).getLast? = some Event.blockForever ∨
      ∃ msg, (runMasterTrace env c).getLast? = some (Event.fatal msg)) := by
  constructor
  · intro h
    unfold runMasterTrace startMasterTrace at h ⊢
    repeat' split at h
    all_goals repeat' split
    all_goals simp_all
  · unfold runMasterTrace startMasterTrace
    repeat' split
    all_goals simp

/-- Witness for C9: the all-successful default run ends with `blockForever`. -/
theorem block_forever_witness :
    (runMasterTrace envAll cDemo).getLast? = some Event.blockForever :=
  (block_forever envAll cDemo).1 (by decide)

/-- **C10.** The management service receives exactly the comma-split entries
of the configured white list, and the empty (nil) list when the configured
string is empty — never a one-element list holding the empty string. -/
theorem whitelist_plumbing (env : Env) (c : MasterConfig) (opt : MasterOption)
    (peers : List String)
    (h : Event.newMasterServer opt peers ∈ runMasterTrace env c) :
    opt.WhiteList = (if c.whiteList = "" then [] else splitComma c.whiteList) := by
  unfold runMasterTrace startMasterTrace at h
  repeat' split at h
  all_goals simp_all [toMasterOption, masterWhiteList]

/-- Witness for C10: the default run (empty white-list flag) constructs the
management service with the empty white list. -/
theorem whitelist_plumbing_witness :
    (toMasterOption cDemo []).WhiteList =
      (if cDemo.whiteList = "" then [] else splitComma cDemo.whiteList) :=
  whitelist_plumbing envAll cDemo (toMasterOption cDemo [])
    ["localhost:9333"] (by decide)

end SeaweedMaster
